import Mathlib

/-!
Verification of the Aadhaar enrollment analytics dashboard (src/app.py)
against its natural-language specification.

The program is a single-pass Streamlit script: it loads a fixed-schema
table, applies four sidebar filters (states, years, quarters, day type)
to obtain `filtered_data`, and renders about a dozen aggregation blocks
from that filtered view.  Below, each relevant fragment of the script is
embedded shallowly: a dataframe is a `List Row`, pandas `groupby(...).agg`
becomes an explicit grouping function, float `NaN` / `inf` results and
out-of-bounds `.iloc[0]` accesses are modelled with `Option`, and a
pandas `KeyError` on a missing optional column is an explicit error
constructor.
-/

/-- One row of the enrollment table (columns of
`Aadhaar_enrollment_FeatureEngineering.csv` used by the script).
The age-bracket and minor-count columns are optional in the schema; their
presence is tracked separately by `Schema`, and the field values here are
only meaningful when the corresponding column is present. -/
structure Row where
  state : String
  district : String
  year : Int
  quarter : Int
  month : Int
  day_of_week : Int
  is_weekend : Int
  total_enrollment : Int
  age_0_5 : Int
  age_5_17 : Int
  age_18_greater : Int
  minor_count : Int
deriving DecidableEq

/-- An entry of a sidebar multiselect: either the sentinel string `'All'`
or an actual dimension value (the Python lists mix the string `'All'`
with state names / years / quarters). -/
inductive Choice (α : Type) where
  | all : Choice α
  | of : α → Choice α
deriving DecidableEq

/-- The current values of the four sidebar filter controls
(`selected_states`, `selected_years`, `selected_quarters`,
`weekend_options` in src/app.py lines 72-99). -/
structure SelectionState where
  selected_states : List (Choice String)
  selected_years : List (Choice Int)
  selected_quarters : List (Choice Int)
  weekend_options : String

/-- src/app.py lines 109-110: `if 'All' not in selected_states and
len(selected_states) > 0: filtered_data =
filtered_data[filtered_data['state'].isin(selected_states)]`. -/
def stateFilter (sel : List (Choice String)) (fd : List Row) : List Row :=
  if Choice.all ∉ sel ∧ 0 < sel.length then
    fd.filter (fun r => decide (Choice.of r.state ∈ sel))
  else fd

/-- src/app.py lines 113-114: the analogous filter on `year`. -/
def yearFilter (sel : List (Choice Int)) (fd : List Row) : List Row :=
  if Choice.all ∉ sel ∧ 0 < sel.length then
    fd.filter (fun r => decide (Choice.of r.year ∈ sel))
  else fd

/-- src/app.py lines 117-118: the analogous filter on `quarter`. -/
def quarterFilter (sel : List (Choice Int)) (fd : List Row) : List Row :=
  if Choice.all ∉ sel ∧ 0 < sel.length then
    fd.filter (fun r => decide (Choice.of r.quarter ∈ sel))
  else fd

/-- src/app.py lines 121-124: `if weekend_options == 'Weekday Only': ...
is_weekend == 0 ... elif weekend_options == 'Weekend Only': ...
is_weekend == 1`. -/
def weekendFilter (w : String) (fd : List Row) : List Row :=
  if w = "Weekday Only" then fd.filter (fun r => decide (r.is_weekend = 0))
  else if w = "Weekend Only" then fd.filter (fun r => decide (r.is_weekend = 1))
  else fd

/-- src/app.py lines 106-124: `filtered_data = data.copy()` followed by the
four sequential in-place filters. -/
def filtered_data (data : List Row) (sel : SelectionState) : List Row :=
  weekendFilter sel.weekend_options
    (quarterFilter sel.selected_quarters
      (yearFilter sel.selected_years
        (stateFilter sel.selected_states data)))

/-- The active state predicate of the spec: state membership, unless the
selection is empty or contains the `'All'` sentinel. -/
@[reducible] def statePred (sel : List (Choice String)) (r : Row) : Prop :=
  Choice.all ∈ sel ∨ sel = [] ∨ Choice.of r.state ∈ sel

/-- The active year predicate (analogous to `statePred`). -/
@[reducible] def yearPred (sel : List (Choice Int)) (r : Row) : Prop :=
  Choice.all ∈ sel ∨ sel = [] ∨ Choice.of r.year ∈ sel

/-- The active quarter predicate (analogous to `statePred`). -/
@[reducible] def quarterPred (sel : List (Choice Int)) (r : Row) : Prop :=
  Choice.all ∈ sel ∨ sel = [] ∨ Choice.of r.quarter ∈ sel

/-- The active day-type predicate: `is_weekend = 0` under `'Weekday Only'`,
`is_weekend = 1` under `'Weekend Only'`, no constraint otherwise. -/
@[reducible] def dayPred (w : String) (r : Row) : Prop :=
  if w = "Weekday Only" then r.is_weekend = 0
  else if w = "Weekend Only" then r.is_weekend = 1
  else True

lemma mem_stateFilter (sel : List (Choice String)) (fd : List Row) (r : Row) :
    r ∈ stateFilter sel fd ↔ r ∈ fd ∧ statePred sel r := by
  unfold stateFilter statePred
  by_cases h : Choice.all ∉ sel ∧ 0 < sel.length
  · rcases h with ⟨h1, h2⟩
    simp only [if_pos (And.intro h1 h2), List.mem_filter, decide_eq_true_eq]
    constructor
    · rintro ⟨hm, hs⟩
      exact ⟨hm, Or.inr (Or.inr hs)⟩
    · rintro ⟨hm, hall | hnil | hs⟩
      · exact absurd hall h1
      · rw [hnil] at h2; simp at h2
      · exact ⟨hm, hs⟩
  · rw [if_neg h]
    push_neg at h
    constructor
    · intro hm
      refine ⟨hm, ?_⟩
      by_cases hall : Choice.all ∈ sel
      · exact Or.inl hall
      · exact Or.inr (Or.inl (List.length_eq_zero.mp (Nat.le_antisymm (h hall) (Nat.zero_le _))))
    · exact fun hm => hm.1

lemma mem_yearFilter (sel : List (Choice Int)) (fd : List Row) (r : Row) :
    r ∈ yearFilter sel fd ↔ r ∈ fd ∧ yearPred sel r := by
  unfold yearFilter yearPred
  by_cases h : Choice.all ∉ sel ∧ 0 < sel.length
  · rcases h with ⟨h1, h2⟩
    simp only [if_pos (And.intro h1 h2), List.mem_filter, decide_eq_true_eq]
    constructor
    · rintro ⟨hm, hs⟩
      exact ⟨hm, Or.inr (Or.inr hs)⟩
    · rintro ⟨hm, hall | hnil | hs⟩
      · exact absurd hall h1
      · rw [hnil] at h2; simp at h2
      · exact ⟨hm, hs⟩
  · rw [if_neg h]
    push_neg at h
    constructor
    · intro hm
      refine ⟨hm, ?_⟩
      by_cases hall : Choice.all ∈ sel
      · exact Or.inl hall
      · exact Or.inr (Or.inl (List.length_eq_zero.mp (Nat.le_antisymm (h hall) (Nat.zero_le _))))
    · exact fun hm => hm.1

lemma mem_quarterFilter (sel : List (Choice Int)) (fd : List Row) (r : Row) :
    r ∈ quarterFilter sel fd ↔ r ∈ fd ∧ quarterPred sel r := by
  unfold quarterFilter quarterPred
  by_cases h : Choice.all ∉ sel ∧ 0 < sel.length
  · rcases h with ⟨h1, h2⟩
    simp only [if_pos (And.intro h1 h2), List.mem_filter, decide_eq_true_eq]
    constructor
    · rintro ⟨hm, hs⟩
      exact ⟨hm, Or.inr (Or.inr hs)⟩
    · rintro ⟨hm, hall | hnil | hs⟩
      · exact absurd hall h1
      · rw [hnil] at h2; simp at h2
      · exact ⟨hm, hs⟩
  · rw [if_neg h]
    push_neg at h
    constructor
    · intro hm
      refine ⟨hm, ?_⟩
      by_cases hall : Choice.all ∈ sel
      · exact Or.inl hall
      · exact Or.inr (Or.inl (List.length_eq_zero.mp (Nat.le_antisymm (h hall) (Nat.zero_le _))))
    · exact fun hm => hm.1

lemma mem_weekendFilter (w : String) (fd : List Row) (r : Row) :
    r ∈ weekendFilter w fd ↔ r ∈ fd ∧ dayPred w r := by
  unfold weekendFilter dayPred
  by_cases h1 : w = "Weekday Only"
  · simp [h1, List.mem_filter]
  · by_cases h2 : w = "Weekend Only"
    · simp [h1, h2, List.mem_filter]
    · simp [h1, h2]

lemma mem_filtered_data (data : List Row) (sel : SelectionState) (r : Row) :
    r ∈ filtered_data data sel ↔
      r ∈ data ∧ statePred sel.selected_states r ∧ yearPred sel.selected_years r ∧
        quarterPred sel.selected_quarters r ∧ dayPred sel.weekend_options r := by
  unfold filtered_data
  rw [mem_weekendFilter, mem_quarterFilter, mem_yearFilter, mem_stateFilter]
  tauto

/-!
## Grouping and aggregation

pandas `groupby(dim)['total_enrollment'].agg(['sum','mean','count'])` with
the default `sort=True`: the distinct keys are listed in ascending order
and each key is paired with the sum / mean / count of `total_enrollment`
over its group.  The mean of a group is a rational; pandas would produce
`NaN` for an empty group, modelled as `none` (groups produced by `groupby`
are never empty, but the embedding keeps the case explicit).
-/

/-- Aggregates of one group: the `['sum', 'mean', 'count']` triple. -/
structure Agg where
  sum : Int
  mean : Option ℚ
  count : Nat
deriving DecidableEq

/-- Insertion of `a` into `l` before the first element `b` with
`le a b = true` (helper for `sortLe`). -/
def insertLe {α : Type} (le : α → α → Bool) (a : α) : List α → List α
  | [] => [a]
  | b :: bs => if le a b then a :: b :: bs else b :: insertLe le a bs

/-- Insertion sort by the comparator `le` (models the ascending key order
of pandas `groupby(sort=True)` and of `sort_values`). -/
def sortLe {α : Type} (le : α → α → Bool) : List α → List α
  | [] => []
  | a :: as => insertLe le a (sortLe le as)

/-- Ascending order on `Int` group keys. -/
def intLe (a b : Int) : Bool := decide (a ≤ b)

/-- Ascending order on `String` group keys. -/
def strLe (a b : String) : Bool := decide (a ≤ b)

/-- Lexicographic ascending order on `(state, district)` group keys. -/
def pairLe (a b : String × String) : Bool :=
  if a.1 = b.1 then decide (a.2 ≤ b.2) else decide (a.1 < b.1)

/-- The distinct group keys of `rows` under the key function `k`, in the
order produced by `sortLe le`. -/
def groupKeys {κ : Type} [DecidableEq κ] (k : Row → κ) (le : κ → κ → Bool)
    (rows : List Row) : List κ :=
  sortLe le (rows.map k).dedup

/-- `rows.groupby(k)['total_enrollment'].agg(['sum','mean','count'])`:
one `(key, aggregates)` pair per distinct key. -/
def groupAgg {κ : Type} [DecidableEq κ] (k : Row → κ) (le : κ → κ → Bool)
    (rows : List Row) : List (κ × Agg) :=
  (groupKeys k le rows).map (fun g =>
    let grp := rows.filter (fun r => decide (k r = g))
    (g, { sum := (grp.map Row.total_enrollment).sum,
          mean := if grp.length = 0 then none
                  else some (((grp.map (fun r => (r.total_enrollment : ℚ))).sum) / grp.length),
          count := grp.length }))

/-- src/app.py line 213: `monthly_data =
filtered_data.groupby('month')['total_enrollment'].agg(['sum','mean','count'])`. -/
def monthly_data (fd : List Row) : List (Int × Agg) := groupAgg Row.month intLe fd

/-- src/app.py line 254: the quarterly grouping. -/
def quarterly_data (fd : List Row) : List (Int × Agg) := groupAgg Row.quarter intLe fd

/-- src/app.py line 285: the day-of-week grouping. -/
def dow_data (fd : List Row) : List (Int × Agg) := groupAgg Row.day_of_week intLe fd

/-- src/app.py lines 350-351: `state_map_data =
filtered_data.groupby('state')['total_enrollment'].agg(['sum','mean','count'])`. -/
def state_map_data (fd : List Row) : List (String × Agg) := groupAgg Row.state strLe fd

/-- src/app.py lines 521-523: the state grouping of the "State-wise
Analysis" tab, sorted by total enrollment descending. -/
def state_data (fd : List Row) : List (String × Agg) :=
  sortLe (fun a b => decide (b.2.sum ≤ a.2.sum)) (groupAgg Row.state strLe fd)

/-- src/app.py lines 557-559: the `['state','district']` grouping, sorted
by total enrollment descending. -/
def district_data (fd : List Row) : List ((String × String) × Agg) :=
  sortLe (fun a b => decide (b.2.sum ≤ a.2.sum))
    (groupAgg (fun r => (r.state, r.district)) pairLe fd)

/-- src/app.py line 729: `yearly_data =
filtered_data.groupby('year')['total_enrollment'].agg(['sum','mean'])`
(the embedding reuses `groupAgg`; the extra `count` field is unused). -/
def yearly_data (fd : List Row) : List (Int × Agg) := groupAgg Row.year intLe fd

/-- `filtered_data['total_enrollment'].sum()` (src/app.py line 159). -/
def total_enrollment_sum (fd : List Row) : Int := (fd.map Row.total_enrollment).sum

/-- The sum of the per-group totals of an aggregated table. -/
def aggSumTotal {κ : Type} (l : List (κ × Agg)) : Int :=
  (l.map (fun p => p.2.sum)).sum

/-!
### Sum preservation for `groupAgg`
-/

lemma insertLe_perm {α : Type} (le : α → α → Bool) (a : α) (l : List α) :
    List.Perm (insertLe le a l) (a :: l) := by
  induction l with
  | nil => simp [insertLe]
  | cons b bs ih =>
    unfold insertLe
    by_cases h : le a b = true
    · simp [h]
    · simp only [h, if_false, Bool.false_eq_true]
      exact ((ih.cons b).trans (List.Perm.swap a b bs))

lemma sortLe_perm {α : Type} (le : α → α → Bool) (l : List α) :
    List.Perm (sortLe le l) l := by
  induction l with
  | nil => simp [sortLe]
  | cons a as ih =>
    unfold sortLe
    exact (insertLe_perm le a (sortLe le as)).trans (ih.cons a)

lemma groupKeys_nodup {κ : Type} [DecidableEq κ] (k : Row → κ) (le : κ → κ → Bool)
    (rows : List Row) : (groupKeys k le rows).Nodup :=
  ((sortLe_perm le (rows.map k).dedup).nodup_iff).mpr (List.nodup_dedup _)

lemma mem_groupKeys {κ : Type} [DecidableEq κ] (k : Row → κ) (le : κ → κ → Bool)
    (rows : List Row) (r : Row) (hr : r ∈ rows) : k r ∈ groupKeys k le rows := by
  unfold groupKeys
  rw [(sortLe_perm le (rows.map k).dedup).mem_iff, List.mem_dedup]
  exact List.mem_map_of_mem k hr

lemma sum_filter_add_sum_filter_not (f : Row → Int) (p : Row → Bool) (rows : List Row) :
    ((rows.filter p).map f).sum + ((rows.filter (fun r => !(p r))).map f).sum
      = (rows.map f).sum := by
  induction rows with
  | nil => simp
  | cons a as ih =>
    by_cases h : p a = true
    · simp [List.filter_cons, h]
      omega
    · simp only [Bool.not_eq_true] at h
      simp [List.filter_cons, h]
      omega

lemma sum_over_keys {κ : Type} [DecidableEq κ] (k : Row → κ) (f : Row → Int) :
    ∀ (G : List κ), G.Nodup → ∀ (rows : List Row), (∀ r ∈ rows, k r ∈ G) →
      (G.map (fun g => ((rows.filter (fun r => decide (k r = g))).map f).sum)).sum
        = (rows.map f).sum := by
  intro G
  induction G with
  | nil =>
    intro _ rows hcov
    have hrows : rows = [] := by
      cases rows with
      | nil => rfl
      | cons a as => exact absurd (hcov a (List.mem_cons_self a as)) (List.not_mem_nil _)
    simp [hrows]
  | cons g G ih =>
    intro hnd rows hcov
    have hgG : g ∉ G := (List.nodup_cons.mp hnd).1
    have hndG : G.Nodup := (List.nodup_cons.mp hnd).2
    set rest := rows.filter (fun r => !(decide (k r = g))) with hrest
    have hcov' : ∀ r ∈ rest, k r ∈ G := by
      intro r hr
      rw [hrest, List.mem_filter] at hr
      have hne : ¬ (k r = g) := by simpa using hr.2
      rcases List.mem_cons.mp (hcov r hr.1) with h | h
      · exact absurd h hne
      · exact h
    have hstep : ∀ g' ∈ G,
        ((rows.filter (fun r => decide (k r = g'))).map f).sum
          = ((rest.filter (fun r => decide (k r = g'))).map f).sum := by
      intro g' hg'
      have hne : g' ≠ g := fun hh => hgG (hh ▸ hg')
      have hfil : rows.filter (fun r => decide (k r = g'))
          = rest.filter (fun r => decide (k r = g')) := by
        rw [hrest, List.filter_filter]
        apply List.filter_congr
        intro r _
        by_cases h : k r = g'
        · simp [h, hne]
        · simp [h]
      rw [hfil]
    calc (((g :: G).map (fun g' =>
            ((rows.filter (fun r => decide (k r = g'))).map f).sum)).sum)
        = ((rows.filter (fun r => decide (k r = g))).map f).sum
            + (G.map (fun g' =>
                ((rows.filter (fun r => decide (k r = g'))).map f).sum)).sum := by
          simp
      _ = ((rows.filter (fun r => decide (k r = g))).map f).sum
            + (G.map (fun g' =>
                ((rest.filter (fun r => decide (k r = g'))).map f).sum)).sum := by
          rw [List.map_congr_left hstep]
      _ = ((rows.filter (fun r => decide (k r = g))).map f).sum
            + (rest.map f).sum := by
          rw [ih hndG rest hcov']
      _ = (rows.map f).sum := by
          rw [hrest]
          exact sum_filter_add_sum_filter_not f _ rows

lemma groupAgg_sum_eq {κ : Type} [DecidableEq κ] (k : Row → κ) (le : κ → κ → Bool)
    (rows : List Row) :
    aggSumTotal (groupAgg k le rows) = total_enrollment_sum rows := by
  unfold aggSumTotal groupAgg total_enrollment_sum
  rw [List.map_map]
  exact sum_over_keys k Row.total_enrollment (groupKeys k le rows)
    (groupKeys_nodup k le rows) rows (fun r hr => mem_groupKeys k le rows r hr)

lemma aggSumTotal_perm {κ : Type} {l l' : List (κ × Agg)} (h : List.Perm l l') :
    aggSumTotal l = aggSumTotal l' :=
  List.Perm.sum_eq (h.map _)

/-!
## Top-state selections (src/app.py lines 389, 397, 544)

`state_map_data.nlargest(1, 'Total_Enrollment').iloc[0]` keeps the row
with the greatest total (first occurrence wins ties, pandas
`keep='first'`) and then indexes position 0.  On an empty table
`nlargest(1, ...)` is empty and `.iloc[0]` raises `IndexError`; the
embedding returns `none` in exactly that case.
-/

/-- `nlargest(1, 'Total_Enrollment').iloc[0]` as an `Option`:
`none` models the `IndexError` raised on an empty table. -/
def nlargestSumHead : List (String × Agg) → Option (String × Agg)
  | [] => none
  | x :: xs => some (xs.foldl (fun acc y => if acc.2.sum < y.2.sum then y else acc) x)

/-- `nsmallest(1, 'Total_Enrollment').iloc[0]` as an `Option`. -/
def nsmallestSumHead : List (String × Agg) → Option (String × Agg)
  | [] => none
  | x :: xs => some (xs.foldl (fun acc y => if y.2.sum < acc.2.sum then y else acc) x)

/-- src/app.py line 389: `top_state =
state_map_data.nlargest(1, 'Total_Enrollment').iloc[0]`. -/
def top_state (fd : List Row) : Option (String × Agg) :=
  nlargestSumHead (state_map_data fd)

/-- src/app.py line 397: `bottom_state =
state_map_data.nsmallest(1, 'Total_Enrollment').iloc[0]`. -/
def bottom_state (fd : List Row) : Option (String × Agg) :=
  nsmallestSumHead (state_map_data fd)

/-- src/app.py line 544: `state_data.iloc[0]['State']` — the first row of
the descending-sorted state table; `none` models the `IndexError` raised
when `state_data` is empty. -/
def state_data_top (fd : List Row) : Option (String × Agg) :=
  (state_data fd).head?

/-!
## Year-over-year growth (src/app.py lines 729-734)

`yearly_data['Growth_%'] = yearly_data['Total_Enrollment'].pct_change() * 100`,
computed only when `len(yearly_data) > 1`.  pandas `pct_change` puts `NaN`
at position 0 and `(x_i - x_{i-1}) / x_{i-1}` at position `i ≥ 1`; a zero
previous total yields a non-finite float (`inf`/`NaN`).  Non-finite
entries are modelled as `none`.
-/

/-- The tail of `pct_change`: one entry per element of the list, each
computed against the preceding value `prev`. -/
def pctChangeTail (prev : ℚ) : List ℚ → List (Option ℚ)
  | [] => []
  | x :: xs => (if prev = 0 then none else some ((x - prev) / prev)) :: pctChangeTail x xs

/-- pandas `Series.pct_change`: `none` first, then relative changes. -/
def pctChange : List ℚ → List (Option ℚ)
  | [] => []
  | x :: xs => none :: pctChangeTail x xs

/-- The per-year totals column `yearly_data['Total_Enrollment']`, as
rationals. -/
def yearly_totals (fd : List Row) : List ℚ :=
  (yearly_data fd).map (fun p => (p.2.sum : ℚ))

/-- src/app.py lines 732-734: the `Growth_%` column, present only when
the yearly table has more than one row (`if len(yearly_data) > 1`). -/
def growth_percent (fd : List Row) : Option (List (Option ℚ)) :=
  if 1 < (yearly_data fd).length then
    some ((pctChange (yearly_totals fd)).map (Option.map (fun q => q * 100)))
  else none

/-!
## Demographic block (src/app.py lines 596-681)

Optional columns: the script guards the whole block with
`if 'age_0_5' in filtered_data.columns:` (line 600) and the minor/adult
split with `if 'minor_dount' in filtered_data.columns:` (line 650 — note
the misspelling), but then reads `age_5_17`, `age_18_greater` (lines
602-603) and `minor_count` (line 654) unconditionally.  Which optional
columns the loaded table actually has is a property of the dataset,
recorded by `Schema`; reading an absent column raises a pandas
`KeyError`, modelled by the `keyError` outcome.
-/

/-- Which optional columns the loaded table has.  `has_minor_dount` is the
presence of a column literally named `minor_dount` (the misspelled name
the guard on line 650 tests); `has_minor_count` is the presence of the
correctly spelled `minor_count` column read on line 654. -/
structure Schema where
  has_age_0_5 : Bool
  has_age_5_17 : Bool
  has_age_18_greater : Bool
  has_minor_count : Bool
  has_minor_dount : Bool
deriving DecidableEq

/-- The canonical schema of the spec: all age brackets and `minor_count`
present, no misspelled `minor_dount` column. -/
def canonicalSchema : Schema :=
  { has_age_0_5 := true, has_age_5_17 := true, has_age_18_greater := true,
    has_minor_count := true, has_minor_dount := false }

/-- src/app.py line 677: `minor_percentage =
(total_minors / (total_minors + total_adults)) * 100` — an unguarded
float division; `0 / 0` on numpy integer sums yields `NaN` (the script
suppresses the warning), modelled as `none`. -/
def minor_percentage (minors adults : Int) : Option ℚ :=
  if minors + adults = 0 then none
  else some (((minors : ℚ) / ((minors : ℚ) + (adults : ℚ))) * 100)

/-- Outcome of one run of the demographic block. -/
inductive DemoResult where
  | warning : DemoResult
  | ageOnly : Int → Int → Int → DemoResult
  | minorSplit : Int → Int → Int → Int → Int → Option ℚ → DemoResult
  | keyError : String → DemoResult
deriving DecidableEq

/-- src/app.py lines 600-681, straight-line embedding: the `age_0_5`
guard (line 600) with its `else: st.warning(...)` (line 681), the
unconditional reads of `age_5_17` / `age_18_greater` (lines 602-603), the
`minor_dount` guard (line 650), the unconditional read of `minor_count`
(line 654), `total_adults = age_18_total` (line 655), and the minor
percentage (line 677). -/
def demographic_block (s : Schema) (fd : List Row) : DemoResult :=
  if s.has_age_0_5 = false then .warning
  else if s.has_age_5_17 = false then .keyError "age_5_17"
  else if s.has_age_18_greater = false then .keyError "age_18_greater"
  else
    let a05 := (fd.map Row.age_0_5).sum
    let a517 := (fd.map Row.age_5_17).sum
    let a18 := (fd.map Row.age_18_greater).sum
    if s.has_minor_dount = false then .ageOnly a05 a517 a18
    else if s.has_minor_count = false then .keyError "minor_count"
    else
      let minors := (fd.map Row.minor_count).sum
      .minorSplit a05 a517 a18 minors a18 (minor_percentage minors a18)

/-- Whether the minor-vs-adult split (and minor percentage) is actually
rendered by a run of the demographic block. -/
def rendersMinorSplit (s : Schema) (fd : List Row) : Bool :=
  match demographic_block s fd with
  | .minorSplit _ _ _ _ _ _ => true
  | _ => false

/-!
## Data explorer and CSV export (src/app.py lines 765-790)

The on-screen table is `filtered_data[selected_columns].head(100)`
(line 780); the download is `filtered_data.to_csv(index=False)` encoded
as UTF-8 (line 784) — the whole filtered view, all columns, header row,
no index column.  A CSV is modelled as a list of records of cells, each
cell holding the column's typed value.
-/

/-- One cell of the delimited export: a string-valued or an
integer-valued column entry. -/
inductive Cell where
  | s : String → Cell
  | i : Int → Cell
deriving DecidableEq

/-- The header row written by `to_csv` (the column order of the fixed
schema, no index column because of `index=False`). -/
def csvHeader : List Cell :=
  [.s "state", .s "district", .s "year", .s "quarter", .s "month",
   .s "day_of_week", .s "is_weekend", .s "total_enrollment",
   .s "age_0_5", .s "age_5_17", .s "age_18_greater", .s "minor_count"]

/-- One data row of the export: every column of the row, in schema
order. -/
def rowToCells (r : Row) : List Cell :=
  [.s r.state, .s r.district, .i r.year, .i r.quarter, .i r.month,
   .i r.day_of_week, .i r.is_weekend, .i r.total_enrollment,
   .i r.age_0_5, .i r.age_5_17, .i r.age_18_greater, .i r.minor_count]

/-- Reading one exported data row back into a `Row` (the round-trip
direction of the spec's export property). -/
def parseCells : List Cell → Option Row
  | [.s st, .s d, .i y, .i q, .i m, .i dw, .i w, .i te,
     .i a05, .i a517, .i a18, .i mc] =>
      some ⟨st, d, y, q, m, dw, w, te, a05, a517, a18, mc⟩
  | _ => none

/-- src/app.py line 784: `csv = filtered_data.to_csv(index=False)` —
header row followed by every row of the filtered view, untruncated. -/
def to_csv (fd : List Row) : List (List Cell) :=
  csvHeader :: fd.map rowToCells

/-- The value of the column named `c` in row `r`, if `c` is one of the
fixed-schema columns. -/
def cellOf (r : Row) (c : String) : Option Cell :=
  if c = "state" then some (.s r.state)
  else if c = "district" then some (.s r.district)
  else if c = "year" then some (.i r.year)
  else if c = "quarter" then some (.i r.quarter)
  else if c = "month" then some (.i r.month)
  else if c = "day_of_week" then some (.i r.day_of_week)
  else if c = "is_weekend" then some (.i r.is_weekend)
  else if c = "total_enrollment" then some (.i r.total_enrollment)
  else if c = "age_0_5" then some (.i r.age_0_5)
  else if c = "age_5_17" then some (.i r.age_5_17)
  else if c = "age_18_greater" then some (.i r.age_18_greater)
  else if c = "minor_count" then some (.i r.minor_count)
  else none

/-- src/app.py line 780: `display_df =
filtered_data[selected_columns].head(100)` — the on-screen explorer
table, projected to the chosen columns and truncated to 100 rows. -/
def display_df (cols : List String) (fd : List Row) : List (List Cell) :=
  (fd.map (fun r => cols.filterMap (cellOf r))).take 100

/-!
## Concrete data used by witnesses and counterexamples
-/

/-- A concrete enrollment row (Delhi, weekday, year 2023). -/
def rowA : Row := ⟨"Delhi", "Central", 2023, 1, 1, 0, 0, 100, 10, 20, 70, 30⟩

/-- A concrete enrollment row (Goa, weekend, year 2024). -/
def rowB : Row := ⟨"Goa", "North Goa", 2024, 2, 4, 5, 1, 200, 5, 15, 180, 20⟩

/-- A concrete two-row dataset. -/
def dataAB : List Row := [rowA, rowB]

/-- A selection keeping only Delhi weekday rows. -/
def selW : SelectionState := ⟨[Choice.of "Delhi"], [Choice.all], [], "Weekday Only"⟩

/-- A selection whose state is absent from `dataAB`: its filtered view is
empty. -/
def selNone : SelectionState := ⟨[Choice.of "Punjab"], [Choice.all], [Choice.all], "All"⟩

/-- The schema with every optional column present, including the
misspelled `minor_dount` one. -/
def fullSchema : Schema := ⟨true, true, true, true, true⟩

/-- A schema with `age_0_5` present but `age_5_17` absent. -/
def schemaMissing517 : Schema := ⟨true, false, true, true, false⟩

/-- A schema with the misspelled `minor_dount` column present but the
correctly spelled `minor_count` column absent. -/
def schemaDountNoCount : Schema := ⟨true, true, true, false, true⟩

/-!
## Helper lemmas
-/

lemma stateFilter_eq_of_all (sel : List (Choice String)) (h : Choice.all ∈ sel)
    (fd : List Row) : stateFilter sel fd = fd := by
  unfold stateFilter
  rw [if_neg]
  intro hc
  exact hc.1 h

lemma stateFilter_nil (fd : List Row) : stateFilter [] fd = fd := by
  unfold stateFilter
  simp

lemma yearFilter_eq_of_all (sel : List (Choice Int)) (h : Choice.all ∈ sel)
    (fd : List Row) : yearFilter sel fd = fd := by
  unfold yearFilter
  rw [if_neg]
  intro hc
  exact hc.1 h

lemma yearFilter_nil (fd : List Row) : yearFilter [] fd = fd := by
  unfold yearFilter
  simp

lemma quarterFilter_eq_of_all (sel : List (Choice Int)) (h : Choice.all ∈ sel)
    (fd : List Row) : quarterFilter sel fd = fd := by
  unfold quarterFilter
  rw [if_neg]
  intro hc
  exact hc.1 h

lemma quarterFilter_nil (fd : List Row) : quarterFilter [] fd = fd := by
  unfold quarterFilter
  simp

lemma pctChange_getElem_succ :
    ∀ (i : Nat) (xs : List ℚ) (a b : ℚ), xs[i]? = some a → xs[i + 1]? = some b →
      (pctChange xs)[i + 1]? = some (if a = 0 then none else some ((b - a) / a)) := by
  intro i
  induction i with
  | zero =>
    intro xs a b h1 h2
    cases xs with
    | nil => simp at h1
    | cons x t =>
      cases t with
      | nil => simp at h2
      | cons y t' =>
        have hx : x = a := by simpa using h1
        have hy : y = b := by simpa using h2
        subst hx
        subst hy
        simp [pctChange, pctChangeTail]
  | succ j ih =>
    intro xs a b h1 h2
    cases xs with
    | nil => simp at h1
    | cons x t =>
      cases t with
      | nil => simp at h1
      | cons y t' =>
        have h1' : (y :: t')[j]? = some a := by simpa using h1
        have h2' : (y :: t')[j + 1]? = some b := by simpa using h2
        have hrec := ih (y :: t') a b h1' h2'
        simp only [pctChange, pctChangeTail, List.getElem?_cons_succ] at hrec ⊢
        exact hrec

lemma yearly_totals_length (fd : List Row) :
    (yearly_totals fd).length = (yearly_data fd).length := by
  unfold yearly_totals
  simp

lemma dayPred_weekday_iff (r : Row) : dayPred "Weekday Only" r ↔ r.is_weekend = 0 := by
  unfold dayPred
  rw [if_pos rfl]

lemma dayPred_weekend_iff (r : Row) : dayPred "Weekend Only" r ↔ r.is_weekend = 1 := by
  unfold dayPred
  rw [if_neg (by decide), if_pos rfl]

lemma dayPred_all_iff (r : Row) : dayPred "All" r ↔ True := by
  unfold dayPred
  rw [if_neg (by decide), if_neg (by decide)]

lemma minorSplit_flags (s : Schema) (fd : List Row) :
    rendersMinorSplit s fd
      = (s.has_age_0_5 && s.has_age_5_17 && s.has_age_18_greater &&
         s.has_minor_dount && s.has_minor_count) := by
  rcases s with ⟨a, b, c, mc, md⟩
  cases a <;> cases b <;> cases c <;> cases mc <;> cases md <;> rfl

/-!
## The claims
-/

/-- Claim C1: for every dataset and Selection State, a record is in the
Filter Engine's output if and only if it is in the dataset and satisfies
the state, year, quarter, and day-type predicates (each inactive when its
selection is empty or contains the `'All'` sentinel, respectively when
the day-type choice is `'All'`); consequently the Filtered View is a
subset of the full dataset. -/
theorem filter_engine_conjunction (data : List Row) (sel : SelectionState) (r : Row) :
    (r ∈ filtered_data data sel ↔
      r ∈ data ∧ statePred sel.selected_states r ∧ yearPred sel.selected_years r ∧
        quarterPred sel.selected_quarters r ∧ dayPred sel.weekend_options r)
    ∧ (r ∈ filtered_data data sel → r ∈ data) :=
  ⟨mem_filtered_data data sel r,
   fun h => ((mem_filtered_data data sel r).mp h).1⟩

/-- Witness for C1 at a concrete dataset and selection. -/
theorem filter_engine_conjunction_witness :
    rowA ∈ filtered_data dataAB selW ∧ rowA ∈ dataAB := by
  have h := filter_engine_conjunction dataAB selW rowA
  have hmem : rowA ∈ filtered_data dataAB selW := h.1.mpr (by decide)
  exact ⟨hmem, h.2 hmem⟩

/-- Claim C2 (code bug): on an empty Filtered View the geographic block
reaches `state_map_data.nlargest(1, 'Total_Enrollment').iloc[0]`
(src/app.py line 389) and `state_data.iloc[0]` (line 544) with an empty
table, where `.iloc[0]` raises `IndexError` — modelled here by the
selections evaluating to `none` instead of a row. -/
theorem empty_filter_top_state_indexerror :
    dataAB ≠ [] ∧ filtered_data dataAB selNone = [] ∧
    top_state (filtered_data dataAB selNone) = none ∧
    bottom_state (filtered_data dataAB selNone) = none ∧
    state_data_top (filtered_data dataAB selNone) = none := by decide

/-- Claim C3 (code bug): `minor_percentage` at src/app.py line 677 has no
division-by-zero guard: on a filtered view whose minor and adult totals
are both zero the expression `(total_minors / (total_minors +
total_adults)) * 100` is the unguarded `0 / 0`, a non-finite `NaN`
(modelled `none`), not an explicit `0` or `N/A` marker. -/
theorem minor_percentage_unguarded :
    demographic_block fullSchema [] = DemoResult.minorSplit 0 0 0 0 0 none ∧
    minor_percentage 0 0 = none := by decide

/-- Claim C4: selecting the `'All'` sentinel for the state, year, or
quarter dimension produces exactly the same Filtered View as leaving that
dimension's selection empty. -/
theorem all_sentinel_equiv (data : List Row) (st : List (Choice String))
    (yr qt : List (Choice Int)) (w : String) :
    (Choice.all ∈ st →
      filtered_data data ⟨st, yr, qt, w⟩ = filtered_data data ⟨[], yr, qt, w⟩) ∧
    (Choice.all ∈ yr →
      filtered_data data ⟨st, yr, qt, w⟩ = filtered_data data ⟨st, [], qt, w⟩) ∧
    (Choice.all ∈ qt →
      filtered_data data ⟨st, yr, qt, w⟩ = filtered_data data ⟨st, yr, [], w⟩) := by
  unfold filtered_data
  refine ⟨fun h => ?_, fun h => ?_, fun h => ?_⟩
  · rw [stateFilter_eq_of_all st h, stateFilter_nil]
  · rw [yearFilter_eq_of_all yr h, yearFilter_nil]
  · rw [quarterFilter_eq_of_all qt h, quarterFilter_nil]

/-- Witness for C4 at a concrete dataset and selections. -/
theorem all_sentinel_equiv_witness :
    filtered_data dataAB ⟨[Choice.all, Choice.of "Delhi"], [], [], "All"⟩
      = filtered_data dataAB ⟨[], [], [], "All"⟩ :=
  (all_sentinel_equiv dataAB [Choice.all, Choice.of "Delhi"] [] [] "All").1 (by decide)

/-- Claim C5: whenever the year-over-year block computes its `Growth_%`
column, the first entry is undefined (`NaN`, modelled `none`) and every
subsequent entry with a nonzero previous total equals
`(this year total - previous year total) / previous year total * 100`. -/
theorem yoy_growth (fd : List Row) (g : List (Option ℚ))
    (hg : growth_percent fd = some g) :
    g[0]? = some none ∧
    ∀ (i : Nat) (a b : ℚ), (yearly_totals fd)[i]? = some a →
      (yearly_totals fd)[i + 1]? = some b → a ≠ 0 →
        g[i + 1]? = some (some ((b - a) / a * 100)) := by
  unfold growth_percent at hg
  by_cases hl : 1 < (yearly_data fd).length
  · rw [if_pos hl, Option.some_inj] at hg
    constructor
    · have hne : yearly_totals fd ≠ [] := by
        intro hnil
        rw [← yearly_totals_length, hnil] at hl
        simp at hl
      rcases hT : yearly_totals fd with _ | ⟨x, xs⟩
      · exact absurd hT hne
      · rw [← hg, hT]
        simp [pctChange]
    · intro i a b h1 h2 ha
      have hrec := pctChange_getElem_succ i (yearly_totals fd) a b h1 h2
      rw [← hg, List.getElem?_map, hrec]
      simp [ha]
  · rw [if_neg hl] at hg
    exact absurd hg (by simp)

/-- Witness for C5 at a concrete two-year dataset. -/
theorem yoy_growth_witness :
    (([none, some (100 : ℚ)] : List (Option ℚ))[0]? = some none) ∧
    (([none, some (100 : ℚ)] : List (Option ℚ))[1]?
      = some (some (((200 : ℚ) - 100) / 100 * 100))) := by
  have hg : growth_percent dataAB = some [none, some 100] := by
    norm_num [growth_percent, yearly_data, yearly_totals, groupAgg, groupKeys, sortLe,
      insertLe, intLe, dataAB, rowA, rowB, pctChange, pctChangeTail]
  have ht0 : (yearly_totals dataAB)[0]? = some 100 := by
    norm_num [yearly_totals, yearly_data, groupAgg, groupKeys, sortLe, insertLe, intLe,
      dataAB, rowA, rowB]
  have ht1 : (yearly_totals dataAB)[1]? = some 200 := by
    norm_num [yearly_totals, yearly_data, groupAgg, groupKeys, sortLe, insertLe, intLe,
      dataAB, rowA, rowB]
  have h := yoy_growth dataAB [none, some 100] hg
  exact ⟨h.1, h.2 0 100 200 ht0 ht1 (by norm_num)⟩

/-- Claim C6: for each grouping dimension used by the blocks (month,
quarter, day-of-week, state, district, year) the sum of the per-group
totals equals the total enrollment over the whole Filtered View. -/
theorem group_sum_preservation (fd : List Row) :
    aggSumTotal (monthly_data fd) = total_enrollment_sum fd ∧
    aggSumTotal (quarterly_data fd) = total_enrollment_sum fd ∧
    aggSumTotal (dow_data fd) = total_enrollment_sum fd ∧
    aggSumTotal (state_map_data fd) = total_enrollment_sum fd ∧
    aggSumTotal (district_data fd) = total_enrollment_sum fd ∧
    aggSumTotal (yearly_data fd) = total_enrollment_sum fd := by
  refine ⟨groupAgg_sum_eq _ _ fd, groupAgg_sum_eq _ _ fd, groupAgg_sum_eq _ _ fd,
    groupAgg_sum_eq _ _ fd, ?_, groupAgg_sum_eq _ _ fd⟩
  unfold district_data
  rw [aggSumTotal_perm (sortLe_perm _ _)]
  exact groupAgg_sum_eq _ _ fd

/-- Claim C7: when every record's `is_weekend` flag is boolean, the
day-type filter partitions the records exactly: the `'Weekday Only'` and
`'Weekend Only'` views are disjoint and a record is in the `'All'` view
if and only if it is in one of them. -/
theorem daytype_partition (data : List Row) (st : List (Choice String))
    (yr qt : List (Choice Int))
    (hb : ∀ r ∈ data, r.is_weekend = 0 ∨ r.is_weekend = 1) :
    (∀ r : Row, ¬(r ∈ filtered_data data ⟨st, yr, qt, "Weekday Only"⟩ ∧
                  r ∈ filtered_data data ⟨st, yr, qt, "Weekend Only"⟩)) ∧
    (∀ r : Row, r ∈ filtered_data data ⟨st, yr, qt, "All"⟩ ↔
       (r ∈ filtered_data data ⟨st, yr, qt, "Weekday Only"⟩ ∨
        r ∈ filtered_data data ⟨st, yr, qt, "Weekend Only"⟩)) := by
  constructor
  · rintro r ⟨h0, h1⟩
    have d0 := (dayPred_weekday_iff r).mp ((mem_filtered_data data _ r).mp h0).2.2.2.2
    have d1 := (dayPred_weekend_iff r).mp ((mem_filtered_data data _ r).mp h1).2.2.2.2
    omega
  · intro r
    rw [mem_filtered_data, mem_filtered_data, mem_filtered_data,
      dayPred_all_iff, dayPred_weekday_iff, dayPred_weekend_iff]
    constructor
    · rintro ⟨hd, hs, hy, hq, -⟩
      rcases hb r hd with h | h
      · exact Or.inl ⟨hd, hs, hy, hq, h⟩
      · exact Or.inr ⟨hd, hs, hy, hq, h⟩
    · rintro (⟨hd, hs, hy, hq, -⟩ | ⟨hd, hs, hy, hq, -⟩) <;> exact ⟨hd, hs, hy, hq, trivial⟩

/-- Witness for C7 at a concrete dataset with boolean weekend flags. -/
theorem daytype_partition_witness :
    rowA ∈ filtered_data dataAB ⟨[], [], [], "All"⟩ ↔
      (rowA ∈ filtered_data dataAB ⟨[], [], [], "Weekday Only"⟩ ∨
       rowA ∈ filtered_data dataAB ⟨[], [], [], "Weekend Only"⟩) :=
  (daytype_partition dataAB [] [] [] (by decide)).2 rowA

/-- Claim C8: the downloadable export always contains the full,
untruncated Filtered View — a header row followed by exactly its rows in
order, each carrying every column, so that parsing the data rows back
reproduces the view — while the on-screen explorer table is truncated to
at most 100 rows of the chosen column subset. -/
theorem export_untruncated_roundtrip (fd : List Row) (cols : List String) :
    (to_csv fd).head? = some csvHeader ∧
    (to_csv fd).length = fd.length + 1 ∧
    (to_csv fd).tail.map parseCells = fd.map some ∧
    (display_df cols fd).length = min 100 fd.length := by
  refine ⟨rfl, by simp [to_csv], ?_, ?_⟩
  · show (fd.map rowToCells).map parseCells = fd.map some
    rw [List.map_map]
    exact List.map_congr_left (fun r _ => rfl)
  · simp [display_df]

/-- Counterexample to claim C9: a dataset whose schema has `age_0_5` but
lacks `age_5_17` makes the demographic block raise a missing-column
`KeyError` (src/app.py line 602) instead of computing or degrading to the
warning. -/
theorem demographic_partial_schema_keyerror :
    schemaMissing517.has_age_0_5 = true ∧ schemaMissing517.has_age_5_17 = false ∧
    demographic_block schemaMissing517 dataAB = DemoResult.keyError "age_5_17" ∧
    demographic_block schemaMissing517 dataAB ≠ DemoResult.warning := by decide

/-- Claim C9 as amended: when `age_0_5` is absent the demographic block
renders the warning and skips computation; but the guard checks only
`age_0_5`, so a schema containing `age_0_5` while lacking `age_5_17` (or
`age_5_17` but lacking `age_18_greater`) raises a missing-column error
rather than computing or warning. -/
theorem demographic_missing_column_behavior (s : Schema) (fd : List Row) :
    (s.has_age_0_5 = false → demographic_block s fd = DemoResult.warning) ∧
    (s.has_age_0_5 = true → s.has_age_5_17 = false →
      demographic_block s fd = DemoResult.keyError "age_5_17") ∧
    (s.has_age_0_5 = true → s.has_age_5_17 = true → s.has_age_18_greater = false →
      demographic_block s fd = DemoResult.keyError "age_18_greater") := by
  unfold demographic_block
  refine ⟨fun h => by simp [h], fun h1 h2 => by simp [h1, h2],
    fun h1 h2 h3 => by simp [h1, h2, h3]⟩

/-- Witness for the amended C9 at concrete schemas. -/
theorem demographic_missing_column_behavior_witness :
    demographic_block ⟨false, true, true, true, false⟩ dataAB = DemoResult.warning :=
  (demographic_missing_column_behavior ⟨false, true, true, true, false⟩ dataAB).1 rfl

/-- Counterexample to claim C10: a schema containing `age_0_5` and the
misspelled `minor_dount` column but not `minor_count` — the claim's
biconditional says the split is rendered, but the block raises a
missing-column `KeyError` at src/app.py line 654 and renders nothing. -/
theorem minor_split_claim_counterexample :
    schemaDountNoCount.has_age_0_5 = true ∧
    schemaDountNoCount.has_minor_dount = true ∧
    rendersMinorSplit schemaDountNoCount dataAB = false ∧
    demographic_block schemaDountNoCount dataAB = DemoResult.keyError "minor_count" := by
  decide

/-- Claim C10 as amended: the minor-vs-adult split is rendered iff the
schema has all three age-bracket columns, the literal `minor_dount`
column, and the `minor_count` column; in particular under the canonical
schema (`minor_count` present, no `minor_dount`) it is never rendered. -/
theorem minor_split_guard (s : Schema) (fd : List Row) :
    rendersMinorSplit s fd
      = (s.has_age_0_5 && s.has_age_5_17 && s.has_age_18_greater &&
         s.has_minor_dount && s.has_minor_count) ∧
    (s.has_minor_dount = false → rendersMinorSplit s fd = false) := by
  refine ⟨minorSplit_flags s fd, fun h => ?_⟩
  rw [minorSplit_flags s fd, h]
  simp

/-- Witness for the amended C10 at the canonical schema. -/
theorem minor_split_guard_witness :
    rendersMinorSplit canonicalSchema dataAB = false :=
  (minor_split_guard canonicalSchema dataAB).2 rfl
